import Mathlib

/-!
Verification of GoPostal (an SMTP-to-Graph mail relay) against its
natural-language specification.

The Go source is shallowly embedded:
* `pkg/utils/utils.go` — `DoWithBackoff`, the bounded-retry primitive, is
  modelled as a pure loop over an abstract context (cancellation observations
  modelled as input streams, one observation per check point in the code) and
  an abstract operation (its per-invocation outcome modelled as an input
  stream).  Durations are nanosecond counts (`Nat`, as all configured
  durations are non-negative); Go's truncating integer division on
  `time.Duration` coincides with `Nat` division there.  `rand.Int63n(n)`
  panics for `n ≤ 0` and otherwise returns a value in `[0, n)`; the random
  source is an input stream reduced modulo the bound, and the panic is a
  distinguished outcome.
* `pkg/auth/auth.go` — the three authenticator variants; the external bcrypt
  comparison (`golang.org/x/crypto/bcrypt.CompareHashAndPassword`) is a
  parameter `bEq : String → String → Bool` (`bEq hash password = true` iff
  the comparison returns nil).  Go maps become association lists.
* `pkg/receiver/session.go` — the per-connection session policy engine.
  The RFC-5322 parse / subject extraction / outbound hand-off of `Data`
  (lines after the size check, which call the Go standard library `net/mail`,
  `regexp`, `mime` and the configured `Sender`) is abstracted as a
  continuation parameter `handleMessage`; every guard and the size-limited
  read are embedded from the source.
* `pkg/sender/graph.go` — the token cache (`Authenticate` / `getAuthToken`)
  with the HTTP exchange modelled as an input (`HTTPOutcome`) and JSON
  decoding (standard library) as a parameter, and `SendEmail` as the
  composition with `DoWithBackoff`.
-/

/-! ## Retry primitive: `pkg/utils/utils.go`, `DoWithBackoff` -/

/-- Outcome of a `DoWithBackoff` run: a nil error, a non-nil error, or a
runtime panic (raised by `rand.Int63n` on a non-positive bound). -/
inductive RetryOutcome (ε : Type) where
  | success
  | failure (e : ε)
  | panicked
deriving DecidableEq, Repr

/-- Observable trace of one `DoWithBackoff` run: the returned outcome, the
number of times `operation` was invoked, and the durations (ns) of the
completed sleeps, in order. -/
structure RetryTrace (ε : Type) where
  outcome : RetryOutcome ε
  opCalls : Nat
  sleeps : List Nat
deriving DecidableEq, Repr

/-- Loop body of `DoWithBackoff` (utils.go lines 93–117).  `n` is
`attempts` (already clamped to `Nat`: the loop runs only while `i < attempts`),
`i` the loop counter, `remaining = n - i` the structural fuel, `lastErr` the
`err` variable, `sleeps` the completed sleeps accumulated in reverse.
`ctxB i` is the value of `ctx.Err()` observed at the top of iteration `i`;
`ctxS i` is `some e` when `ctx.Done()` fires (with `ctx.Err() = e`) during the
sleep of iteration `i`, and `none` when the `time.After` timer wins.
`op i` is the result of the `i`-th invocation of `operation` (`none` = nil).
The source's `if i >= attempts { return err }` guard is kept verbatim even
though it is unreachable inside the loop. -/
def doWithBackoffLoop {ε : Type} (ctxB ctxS op : Nat → Option ε) (n backoff : Nat)
    (rand : Nat → Nat) :
    Nat → Nat → Option ε → List Nat → RetryTrace ε
  | 0, i, lastErr, sleeps =>
    ⟨match lastErr with
      | none => .success
      | some e => .failure e, i, sleeps.reverse⟩
  | remaining + 1, i, lastErr, sleeps =>
    match ctxB i with
    | some e => ⟨.failure e, i, sleeps.reverse⟩
    | none =>
      match op i with
      | none => ⟨.success, i + 1, sleeps.reverse⟩
      | some e =>
        if i ≥ n then ⟨.failure e, i + 1, sleeps.reverse⟩
        else if backoff / 4 = 0 then ⟨.panicked, i + 1, sleeps.reverse⟩
        else
          let sleep := backoff * 2 ^ i + rand i % (backoff / 4)
          match ctxS i with
          | some e2 => ⟨.failure e2, i + 1, sleeps.reverse⟩
          | none => doWithBackoffLoop ctxB ctxS op n backoff rand remaining (i + 1) (some e)
              (sleep :: sleeps)

/-- Embedding of `DoWithBackoff(ctx, operation, attempts, backoff)` (utils.go lines
91–119).  `attempts` keeps the Go `int` type; for `attempts ≤ 0` the loop body
never runs and the function returns the zero-valued `err` (nil = success). -/
def DoWithBackoff {ε : Type} (ctxB ctxS op : Nat → Option ε) (attempts : Int)
    (backoff : Nat) (rand : Nat → Nat) : RetryTrace ε :=
  doWithBackoffLoop ctxB ctxS op attempts.toNat backoff rand attempts.toNat 0 none []

/-! ## Authenticators: `pkg/auth/auth.go` -/

/-- The three authenticator variants (auth.go).  Go's
`map[string]string` credential maps become association lists. -/
inductive Authenticator where
  | plaintext (credentials : List (String × String))
  | hashed (credentials : List (String × String))
  | alwaysAllow
deriving DecidableEq, Repr

/-- Embedding of `Check(username, password)` for each variant (auth.go lines 17–22,
35–41, 52–54).  `bEq hash password` models
`bcrypt.CompareHashAndPassword([]byte(hash), []byte(password)) == nil`,
the external salted-hash comparison. -/
def Authenticator.Check (bEq : String → String → Bool) :
    Authenticator → String → String → Bool
  | .plaintext creds, username, password =>
    match creds.lookup username with
    | some pw => password == pw
    | none => false
  | .hashed creds, username, password =>
    match creds.lookup username with
    | some pw => bEq pw password
    | none => false
  | .alwaysAllow, _, _ => true

/-- Embedding of `NewAuthenticatorPlaintext` (auth.go lines 24–28). -/
def NewAuthenticatorPlaintext (creds : List (String × String)) : Authenticator :=
  .plaintext creds

/-- Embedding of `NewAuthenticatorHashed` (auth.go lines 43–47).  The source constructs
and returns an `&AuthenticatorPlaintext{...}`, not an
`AuthenticatorHashed`. -/
def NewAuthenticatorHashed (creds : List (String × String)) : Authenticator :=
  .plaintext creds

/-- Embedding of `NewAuthenticatorAlwaysAllow` (auth.go lines 56–58). -/
def NewAuthenticatorAlwaysAllow : Authenticator :=
  .alwaysAllow

/-! ## Outbound sender: `pkg/sender/graph.go` -/

/-- The retry-relevant configuration of `GraphSender` (graph.go lines 24–34):
`retries` and `backoff` as handed to `DoWithBackoff`. -/
structure GraphSenderRetryConfig where
  retries : Int
  backoff : Nat
deriving DecidableEq, Repr

/-- Embedding of `GraphSender.SendEmail` (graph.go lines 207–211): wraps one
`sendEmailOnce` attempt (outcome stream `sendOnce`) in `DoWithBackoff` with
the configured `retries` and `backoff`. -/
def GraphSender.SendEmail {ε : Type} (gs : GraphSenderRetryConfig)
    (ctxB ctxS sendOnce : Nat → Option ε) (rand : Nat → Nat) : RetryTrace ε :=
  DoWithBackoff ctxB ctxS sendOnce gs.retries gs.backoff rand

/-- Embedding of `AuthToken` (structs.go lines 69–72): bearer token and absolute expiry.
Times are nanoseconds on an absolute clock (`Int`, as Go `time.Time`
differences are `int64` nanoseconds). -/
structure AuthToken where
  token : String
  expiresAt : Int
deriving DecidableEq, Repr

/-- The mutable token cache of a `GraphSender` (graph.go line 26). -/
structure GraphTokenCache where
  token : Option AuthToken
deriving DecidableEq, Repr

/-- Embedding of `AuthTokenResponse` (structs.go lines 63–67), the decoded JSON body of a
token response.  `ExpiresIn` is seconds. -/
structure AuthTokenResponse where
  accessToken : String
  tokenType : String
  expiresIn : Int
deriving DecidableEq, Repr

/-- Outcome of the HTTP exchange inside `getAuthToken`: a transport error
from `httpClient.Do`, or a response with a status code and a body (already
truncated to 1 MiB by the source's `LimitReader`). -/
inductive HTTPOutcome where
  | transportError (msg : String)
  | response (status : Nat) (body : String)
deriving DecidableEq, Repr

/-- Errors surfaced by the token path. -/
inductive TokenErr where
  | transport (msg : String)
  | badStatus (status : Nat)
  | unmarshal
deriving DecidableEq, Repr

/-- Embedding of `GraphSender.getAuthToken` (graph.go lines 56–102), from the HTTP send
onward: request construction cannot fail for the fixed URL and form body, so
the function is determined by the HTTP outcome.  `jsonParse` models
`json.Unmarshal` into `AuthTokenResponse` (`none` = malformed body); `now`
is `time.Now()` in ns.  On a non-200 status or a parse failure an error is
returned; on success the token expires at `now + ExpiresIn seconds`. -/
def GraphSender.getAuthToken (jsonParse : String → Option AuthTokenResponse)
    (now : Int) (resp : HTTPOutcome) : Except TokenErr AuthToken :=
  match resp with
  | .transportError msg => .error (.transport msg)
  | .response status body =>
    if status ≠ 200 then .error (.badStatus status)
    else
      match jsonParse body with
      | none => .error .unmarshal
      | some tokenResp =>
        .ok ⟨tokenResp.accessToken, now + tokenResp.expiresIn * 1000000000⟩

/-- One minute, in nanoseconds (`1*time.Minute`, graph.go line 105). -/
def minuteNs : Int := 60 * 1000000000

/-- The internal timeout handed to `getAuthTokenWithTimeout`
(`10*time.Second`, graph.go line 112), in nanoseconds. -/
def tokenRequestTimeoutNs : Nat := 10 * 1000000000

/-- Observable result of one `GraphSender.Authenticate` call. -/
structure AuthenticateResult where
  cache : GraphTokenCache
  error : Option TokenErr
  fetchCalled : Bool
  fetchTimeout : Option Nat
deriving DecidableEq, Repr

/-- Embedding of `GraphSender.Authenticate` (graph.go lines 104–122).  If a token is held
and `time.Until(expiresAt) = expiresAt - now` exceeds one minute, returns nil
immediately without a network call.  Otherwise it calls
`getAuthTokenWithTimeout(ctx, 10s)`, whose outcome is abstracted as `fetch`;
on error the error is returned (wrapped by the source in
"authentication failed: %w") and the cache is not written; on success the
new token is stored. -/
def GraphSender.Authenticate (now : Int) (fetch : Except TokenErr AuthToken)
    (gs : GraphTokenCache) : AuthenticateResult :=
  match gs.token with
  | some tok =>
    if tok.expiresAt - now > minuteNs then
      ⟨gs, none, false, none⟩
    else
      match fetch with
      | .error e => ⟨gs, some e, true, some tokenRequestTimeoutNs⟩
      | .ok newTok => ⟨⟨some newTok⟩, none, true, some tokenRequestTimeoutNs⟩
  | none =>
    match fetch with
    | .error e => ⟨gs, some e, true, some tokenRequestTimeoutNs⟩
    | .ok newTok => ⟨⟨some newTok⟩, none, true, some tokenRequestTimeoutNs⟩

/-! ## Session policy engine: `pkg/receiver/session.go` -/

/-- The policy-relevant part of `config.ListenerConfig`
(part_002, `ListenerConfig`): the `require_auth` flag. -/
structure ListenerConfig where
  requireAuth : Bool
deriving DecidableEq, Repr

/-- Embedding of `config.MailPolicy` (part_002): allowed addresses and domains; both
empty means allow-all. -/
structure MailPolicy where
  addresses : List String
  domains : List String
deriving DecidableEq, Repr

/-- Embedding of `config.RecvLimits` (part_002): maximum message size in bytes and
maximum recipients per message. -/
structure RecvLimits where
  maxSize : Nat
  maxRecipients : Nat
deriving DecidableEq, Repr

/-- Embedding of the `config.AuthMode` values (`disabled | anonymous | plain | plain-any`);
`other` covers any unrecognized configured string. -/
inductive AuthMode where
  | disabled
  | anonymous
  | plain
  | plainAny
  | other (s : String)
deriving DecidableEq, Repr

/-- The policy-relevant part of `config.RecvGlobalConfig` (part_002). -/
structure RecvGlobalConfig where
  authMode : AuthMode
  authenticator : Authenticator
  validFrom : MailPolicy
  validTo : MailPolicy
  limits : RecvLimits
deriving DecidableEq, Repr

/-- The mutable state of a `Session` (session.go lines 23–36): the
`authenticated` flag and the accumulated transaction fields.  Message bytes
are `List Nat`. -/
structure SessionState where
  authenticated : Bool
  emailSubject : String
  emailFrom : String
  emailTo : List String
  emailBody : List Nat
deriving DecidableEq, Repr

/-- The errors a session command can return (pkg/errs/errors.go and the
`go-smtp` sentinel errors used by session.go). -/
inductive SMTPErr where
  | errAuthRequired
  | errServerClosed
  | errAuthUnsupported
  | errAuthFailed
  | errInvalidEmail
  | errFromDisallowed
  | errToDisallowed
  | errTooManyRecipients
  | errDataTooLarge
  | sendFailed
deriving DecidableEq, Repr

/-- Embedding of `strings.Trim(s, "<>")`: strip leading and trailing `<` / `>`
characters. -/
def trimAngle (s : String) : String :=
  let cut : Char → Bool := fun c => c == '<' || c == '>'
  ⟨((s.toList.dropWhile cut).reverse.dropWhile cut).reverse⟩

/-- Embedding of `strings.EqualFold` as used on e-mail addresses: case-insensitive
equality (ASCII folding suffices for the configured addresses). -/
def eqFold (a b : String) : Bool :=
  a.toLower == b.toLower

/-- Embedding of `strings.HasSuffix(strings.ToLower(s), "@" + strings.ToLower(dom))`. -/
def domainMatch (s dom : String) : Bool :=
  ("@" ++ dom.toLower).toList.isSuffixOf s.toLower.toList

/-- The allow-policy test shared by `Mail` and `Rcpt` (session.go lines
124–136 and 168–180): the address equals a listed address case-insensitively,
or case-insensitively ends in `@<domain>` for a listed domain. -/
def addressAllowed (policy : MailPolicy) (addr : String) : Bool :=
  policy.addresses.any (fun a => eqFold addr a) ||
    policy.domains.any (fun dom => domainMatch addr dom)

/-- Embedding of `Session.AuthMechanisms` (session.go lines 39–61). -/
def Session.AuthMechanisms (cfgL : ListenerConfig) (cfgG : RecvGlobalConfig) :
    List String :=
  if !cfgL.requireAuth then []
  else
    match cfgG.authMode with
    | .disabled => []
    | .plainAny => ["PLAIN"]
    | .plain => ["PLAIN"]
    | .anonymous => ["ANONYMOUS"]
    | .other _ => []

/-- Embedding of `Session.Auth` (session.go lines 81–103): checks context cancellation
first, then membership of the requested mechanism in the offered set, then
dispatches on the mechanism (returning a SASL server, modelled as success). -/
def Session.Auth (cfgL : ListenerConfig) (cfgG : RecvGlobalConfig)
    (ctxCancelled : Bool) (mech : String) : Option SMTPErr :=
  if ctxCancelled then some .errServerClosed
  else if !(Session.AuthMechanisms cfgL cfgG).contains mech then
    some .errAuthUnsupported
  else if mech == "ANONYMOUS" || mech == "PLAIN" then none
  else some .errAuthUnsupported

/-- Embedding of `Session.authPlain` (session.go lines 63–73): marks the session
authenticated iff the configured authenticator accepts the credentials. -/
def Session.authPlain (cfgG : RecvGlobalConfig) (bEq : String → String → Bool)
    (s : SessionState) (username password : String) :
    SessionState × Option SMTPErr :=
  if cfgG.authenticator.Check bEq username password then
    ({ s with authenticated := true }, none)
  else (s, some .errAuthFailed)

/-- Embedding of `Session.Mail` (session.go lines 106–145).  `ctxCancelled` is the value
of `s.ctx.Err() != nil` at the check point. -/
def Session.Mail (cfgL : ListenerConfig) (cfgG : RecvGlobalConfig)
    (ctxCancelled : Bool) (s : SessionState) (fromAddr : String) :
    SessionState × Option SMTPErr :=
  if cfgL.requireAuth && !s.authenticated then (s, some .errAuthRequired)
  else if ctxCancelled then (s, some .errServerClosed)
  else
    let f := trimAngle fromAddr
    if f.length = 0 then (s, some .errInvalidEmail)
    else if (cfgG.validFrom.addresses.length > 0 ||
        cfgG.validFrom.domains.length > 0) &&
        !addressAllowed cfgG.validFrom f then
      (s, some .errFromDisallowed)
    else ({ s with emailFrom := f }, none)

/-- Embedding of `Session.Rcpt` (session.go lines 148–197). -/
def Session.Rcpt (cfgL : ListenerConfig) (cfgG : RecvGlobalConfig)
    (ctxCancelled : Bool) (s : SessionState) (toAddr : String) :
    SessionState × Option SMTPErr :=
  if cfgL.requireAuth && !s.authenticated then (s, some .errAuthRequired)
  else if ctxCancelled then (s, some .errServerClosed)
  else
    let t := trimAngle toAddr
    if t.length = 0 then (s, some .errInvalidEmail)
    else if (cfgG.validTo.addresses.length > 0 ||
        cfgG.validTo.domains.length > 0) &&
        !addressAllowed cfgG.validTo t then
      (s, some .errToDisallowed)
    else if s.emailTo.length ≥ cfgG.limits.maxRecipients then
      (s, some .errTooManyRecipients)
    else ({ s with emailTo := s.emailTo ++ [t] }, none)

/-- Result of `Session.Data`: the session state, the returned error, and the
number of bytes read from the transport. -/
structure DataResult where
  state : SessionState
  error : Option SMTPErr
  bytesRead : Nat
deriving DecidableEq, Repr

/-- Embedding of `Session.Data` (session.go lines 200–280).  `stream` is the sequence of
bytes available on the transport; `io.LimitReader(r, maxSize+1)` followed by
`io.ReadAll` yields its first `maxSize + 1` bytes.  Everything from the
RFC-5322 parse to the outbound `SendEmail` call (lines 224–279, which invoke
the Go standard library `net/mail`/`regexp`/`mime` and the configured
sender) is abstracted as the continuation `handleMessage`, applied to the
session state and the size-checked data. -/
def Session.Data (cfgL : ListenerConfig) (cfgG : RecvGlobalConfig)
    (ctxCancelled : Bool)
    (handleMessage : SessionState → List Nat → SessionState × Option SMTPErr)
    (s : SessionState) (stream : List Nat) : DataResult :=
  if cfgL.requireAuth && !s.authenticated then ⟨s, some .errAuthRequired, 0⟩
  else if ctxCancelled then ⟨s, some .errServerClosed, 0⟩
  else
    let data := stream.take (cfgG.limits.maxSize + 1)
    if data.length > cfgG.limits.maxSize then
      ⟨s, some .errDataTooLarge, data.length⟩
    else
      let r := handleMessage s data
      ⟨r.1, r.2, data.length⟩

/-- Embedding of `Session.Reset` (session.go lines 283–287): clears sender, recipients
and body; authentication state and subject are untouched. -/
def Session.Reset (s : SessionState) : SessionState :=
  { s with emailFrom := "", emailTo := [], emailBody := [] }

/-- Embedding of `Session.Logout` (session.go lines 290–292): always succeeds. -/
def Session.Logout (_s : SessionState) : Option SMTPErr :=
  none

/-- Iterated `Session.Rcpt` over a list of addresses, stopping at the first
error (used to state the N-recipients scenario of C7). -/
def Session.rcptAll (cfgL : ListenerConfig) (cfgG : RecvGlobalConfig)
    (ctxCancelled : Bool) :
    SessionState → List String → SessionState × Option SMTPErr
  | s, [] => (s, none)
  | s, t :: ts =>
    match Session.Rcpt cfgL cfgG ctxCancelled s t with
    | (s2, none) => Session.rcptAll cfgL cfgG ctxCancelled s2 ts
    | (s2, some e) => (s2, some e)

/-- An address that passes `Rcpt`'s trim and allow-policy checks. -/
def rcptAdmissible (cfgG : RecvGlobalConfig) (t : String) : Bool :=
  decide ((trimAngle t).length ≠ 0) &&
    !((cfgG.validTo.addresses.length > 0 || cfgG.validTo.domains.length > 0) &&
      !addressAllowed cfgG.validTo (trimAngle t))

/-! ## Theorems about the retry primitive -/

/-- C3: `DoWithBackoff` with `attempts ≤ 0` returns nil without invoking the
operation, and `GraphSender.SendEmail` with `retries = 0` reports success
with zero delivery attempts. -/
theorem c3_zero_attempts_success {ε : Type} (ctxB ctxS op : Nat → Option ε)
    (attempts : Int) (backoff : Nat) (rand : Nat → Nat)
    (gs : GraphSenderRetryConfig)
    (hA : attempts ≤ 0) (hG : gs.retries = 0) :
    DoWithBackoff ctxB ctxS op attempts backoff rand =
      ⟨.success, 0, []⟩ ∧
    GraphSender.SendEmail gs ctxB ctxS op rand = ⟨.success, 0, []⟩ := by
  constructor
  · have h0 : attempts.toNat = 0 := Int.toNat_of_nonpos hA
    simp [DoWithBackoff, h0, doWithBackoffLoop]
  · simp [GraphSender.SendEmail, DoWithBackoff, hG, doWithBackoffLoop]

/-- Witness for C3 at `attempts = -1`, `retries = 0`. -/
theorem c3_zero_attempts_success_witness :
    DoWithBackoff (ε := String) (fun _ => none) (fun _ => none) (fun _ => none)
      (-1) 8 (fun _ => 0) = ⟨.success, 0, []⟩ ∧
    GraphSender.SendEmail (ε := String) ⟨0, 8⟩ (fun _ => none) (fun _ => none)
      (fun _ => none) (fun _ => 0) = ⟨.success, 0, []⟩ :=
  c3_zero_attempts_success _ _ _ (-1) 8 _ ⟨0, 8⟩ (by decide) rfl

/-- C4: with at least one attempt, an uncancelled context, a failing first
invocation and `backoff < 4` ns (so `backoff / 4` truncates to `0`),
`DoWithBackoff` panics while drawing the jitter instead of returning an
error. -/
theorem c4_small_backoff_panics {ε : Type} (ctxB ctxS op : Nat → Option ε)
    (attempts : Int) (backoff : Nat) (rand : Nat → Nat) (e : ε)
    (hA : 1 ≤ attempts) (hB : backoff < 4)
    (hCtx : ctxB 0 = none) (hOp : op 0 = some e) :
    (DoWithBackoff ctxB ctxS op attempts backoff rand).outcome = .panicked := by
  have hdiv : backoff / 4 = 0 := Nat.div_eq_of_lt hB
  have h1 : 1 ≤ attempts.toNat := by omega
  obtain ⟨k, hk⟩ : ∃ k, attempts.toNat = k + 1 := ⟨attempts.toNat - 1, by omega⟩
  have hge : ¬ (0 ≥ attempts.toNat) := by omega
  simp [DoWithBackoff, hk, doWithBackoffLoop, hCtx, hOp, hdiv, show ¬ (0 ≥ k + 1) by omega]

/-- Witness for C4 at `attempts = 1`, `backoff = 3`. -/
theorem c4_small_backoff_panics_witness :
    (DoWithBackoff (ε := String) (fun _ => none) (fun _ => none)
      (fun _ => some "boom") 1 3 (fun _ => 0)).outcome = .panicked :=
  c4_small_backoff_panics _ _ _ 1 3 _ "boom" (by decide) (by decide) rfl rfl

/-- C5 fails on the code: with `attempts = 1`, `backoff = 4` ns, an
uncancelled context and an operation that always fails, the run completes
exactly one full sleep of `backoff * 2^0 + jitter = 4` ns before returning
the error — the source's `if i >= attempts` guard (utils.go line 103) sits
inside a loop that only runs while `i < attempts`, so it can never fire and
the claimed "no sleep after the final failed attempt" does not hold. -/
theorem c5_sleeps_after_final_attempt :
    DoWithBackoff (ε := String) (fun _ => none) (fun _ => none)
      (fun _ => some "err") 1 4 (fun _ => 0) = ⟨.failure "err", 1, [4]⟩ := by
  rfl

/-- C10: invocation counts and results of the retry primitive.
(1) `attempts = 3`, operation fails twice then succeeds: exactly 3
invocations and overall success.  (2) `attempts = 2`, operation always
fails: exactly 2 invocations and the result is the last observed error.
(3) context cancelled during the sleep after a failed first attempt:
the cancellation error is returned and the operation is not invoked again. -/
theorem c10_retry_invocation_counts {ε : Type} (backoff : Nat) (rand : Nat → Nat)
    (ctxB ctxS ctxSc : Nat → Option ε) (opA opB opC : Nat → Option ε)
    (es : Nat → ε) (e0 e1 e0c ce : ε)
    (hB : backoff / 4 ≠ 0)
    (hCtxB : ∀ i, ctxB i = none) (hCtxS : ∀ i, ctxS i = none)
    (hA0 : opA 0 = some e0) (hA1 : opA 1 = some e1) (hA2 : opA 2 = none)
    (hBop : ∀ i, opB i = some (es i))
    (hSc : ctxSc 0 = some ce) (hC0 : opC 0 = some e0c) :
    ((DoWithBackoff ctxB ctxS opA 3 backoff rand).outcome = .success ∧
      (DoWithBackoff ctxB ctxS opA 3 backoff rand).opCalls = 3) ∧
    ((DoWithBackoff ctxB ctxS opB 2 backoff rand).outcome = .failure (es 1) ∧
      (DoWithBackoff ctxB ctxS opB 2 backoff rand).opCalls = 2) ∧
    ((DoWithBackoff ctxB ctxSc opC 3 backoff rand).outcome = .failure ce ∧
      (DoWithBackoff ctxB ctxSc opC 3 backoff rand).opCalls = 1) := by
  refine ⟨⟨?_, ?_⟩, ⟨?_, ?_⟩, ⟨?_, ?_⟩⟩ <;>
    simp [DoWithBackoff, doWithBackoffLoop, hB, hCtxB, hCtxS, hA0, hA1, hA2,
      hBop, hSc, hC0]

/-- Witness for C10: `backoff = 8`, concrete streams over `String` errors. -/
theorem c10_retry_invocation_counts_witness :
    ((DoWithBackoff (ε := String) (fun _ => none) (fun _ => none)
        (fun i => if i < 2 then some (toString i) else none) 3 8 (fun _ => 0)).outcome
          = .success ∧
      (DoWithBackoff (ε := String) (fun _ => none) (fun _ => none)
        (fun i => if i < 2 then some (toString i) else none) 3 8 (fun _ => 0)).opCalls
          = 3) ∧
    ((DoWithBackoff (ε := String) (fun _ => none) (fun _ => none)
        (fun i => some (toString i)) 2 8 (fun _ => 0)).outcome
          = .failure (toString 1) ∧
      (DoWithBackoff (ε := String) (fun _ => none) (fun _ => none)
        (fun i => some (toString i)) 2 8 (fun _ => 0)).opCalls = 2) ∧
    ((DoWithBackoff (ε := String) (fun _ => none) (fun _ => some "cancelled")
        (fun _ => some "fail") 3 8 (fun _ => 0)).outcome = .failure "cancelled" ∧
      (DoWithBackoff (ε := String) (fun _ => none) (fun _ => some "cancelled")
        (fun _ => some "fail") 3 8 (fun _ => 0)).opCalls = 1) :=
  c10_retry_invocation_counts 8 (fun _ => 0) (fun _ => none) (fun _ => none)
    (fun _ => some "cancelled")
    (fun i => if i < 2 then some (toString i) else none)
    (fun i => some (toString i)) (fun _ => some "fail")
    toString "0" "1" "fail" "cancelled"
    (by decide) (fun _ => rfl) (fun _ => rfl) rfl rfl rfl (fun _ => rfl) rfl rfl

/-! ## Theorems about the session policy engine -/

/-- C1 fails on the code: on a listener requiring authentication, with an
unauthenticated session and an already-cancelled context, `Mail`, `Rcpt` and
`Data` return `AuthenticationRequired`, not `ServiceUnavailable`: the
auth-required check (session.go lines 107, 149, 201) precedes the
context-cancellation check (lines 112, 154, 206). -/
theorem c1_ctx_check_not_first :
    (Session.Mail ⟨true⟩ ⟨.plain, .alwaysAllow, ⟨[], []⟩, ⟨[], []⟩, ⟨100, 100⟩⟩
        true ⟨false, "", "", [], []⟩ "a@b.c").2 = some .errAuthRequired ∧
    (Session.Rcpt ⟨true⟩ ⟨.plain, .alwaysAllow, ⟨[], []⟩, ⟨[], []⟩, ⟨100, 100⟩⟩
        true ⟨false, "", "", [], []⟩ "a@b.c").2 = some .errAuthRequired ∧
    (Session.Data ⟨true⟩ ⟨.plain, .alwaysAllow, ⟨[], []⟩, ⟨[], []⟩, ⟨100, 100⟩⟩
        true (fun s _ => (s, none)) ⟨false, "", "", [], []⟩ []).error
      = some .errAuthRequired ∧
    SMTPErr.errAuthRequired ≠ SMTPErr.errServerClosed :=
  ⟨rfl, rfl, rfl, by decide⟩

/-- C1 amended: `Auth` checks cancellation first and fails with
`ServiceUnavailable` whenever the context is cancelled; `Mail`, `Rcpt` and
`Data` check the auth requirement first, so with a cancelled context they
fail with `AuthenticationRequired` when the listener requires auth and the
session is unauthenticated, and with `ServiceUnavailable` (before any other
validation, leaving the state unchanged) otherwise. -/
theorem c1_amended_guard_order (cfgL : ListenerConfig) (cfgG : RecvGlobalConfig)
    (s : SessionState) (mech fromAddr toAddr : String)
    (hm : SessionState → List Nat → SessionState × Option SMTPErr)
    (stream : List Nat) :
    Session.Auth cfgL cfgG true mech = some .errServerClosed ∧
    Session.Mail cfgL cfgG true s fromAddr =
      (s, some (if cfgL.requireAuth && !s.authenticated then .errAuthRequired
        else .errServerClosed)) ∧
    Session.Rcpt cfgL cfgG true s toAddr =
      (s, some (if cfgL.requireAuth && !s.authenticated then .errAuthRequired
        else .errServerClosed)) ∧
    Session.Data cfgL cfgG true hm s stream =
      ⟨s, some (if cfgL.requireAuth && !s.authenticated then .errAuthRequired
        else .errServerClosed), 0⟩ := by
  refine ⟨rfl, ?_, ?_, ?_⟩ <;>
    cases h : cfgL.requireAuth && !s.authenticated <;>
      simp [Session.Mail, Session.Rcpt, Session.Data, h]

/-- C2 fails on the code: a successful `MAIL FROM` does not clear the
recipients accumulated before the call (session.go lines 142–144 only set
`emailFrom`). -/
theorem c2_mail_keeps_recipients :
    (Session.Mail ⟨false⟩ ⟨.plain, .alwaysAllow, ⟨[], []⟩, ⟨[], []⟩, ⟨100, 100⟩⟩
        false ⟨false, "", "", ["old@x.y"], []⟩ "a@b.c").2 = none ∧
    (Session.Mail ⟨false⟩ ⟨.plain, .alwaysAllow, ⟨[], []⟩, ⟨[], []⟩, ⟨100, 100⟩⟩
        false ⟨false, "", "", ["old@x.y"], []⟩ "a@b.c").1.emailTo = ["old@x.y"] ∧
    ["old@x.y"] ≠ ([] : List String) := by
  refine ⟨rfl, rfl, by decide⟩

/-- C2 amended: whenever `Mail` succeeds it records the trimmed sender and
leaves every other session field — in particular the recipient list —
unchanged; recipients are cleared only by `Reset`. -/
theorem c2_amended_mail_records_sender (cfgL : ListenerConfig)
    (cfgG : RecvGlobalConfig) (c : Bool) (s s' : SessionState) (fromAddr : String)
    (h : Session.Mail cfgL cfgG c s fromAddr = (s', none)) :
    s' = { s with emailFrom := trimAngle fromAddr } ∧
    s'.emailTo = s.emailTo ∧
    (Session.Reset s').emailTo = [] := by
  simp only [Session.Mail] at h
  split at h
  · exact absurd (congrArg Prod.snd h) (by simp)
  · split at h
    · exact absurd (congrArg Prod.snd h) (by simp)
    · split at h
      · exact absurd (congrArg Prod.snd h) (by simp)
      · split at h
        · exact absurd (congrArg Prod.snd h) (by simp)
        · obtain ⟨h1, -⟩ := (Prod.mk.injEq _ _ _ _).mp h
          subst h1
          exact ⟨rfl, rfl, rfl⟩

/-- Witness for C2 amended, at a successful concrete `Mail` call. -/
theorem c2_amended_mail_records_sender_witness :
    (⟨false, "", "a@b.c", ["old@x.y"], []⟩ : SessionState)
        = { (⟨false, "", "", ["old@x.y"], []⟩ : SessionState) with
            emailFrom := trimAngle "<a@b.c>" } ∧
    (⟨false, "", "a@b.c", ["old@x.y"], []⟩ : SessionState).emailTo
        = (⟨false, "", "", ["old@x.y"], []⟩ : SessionState).emailTo ∧
    (Session.Reset ⟨false, "", "a@b.c", ["old@x.y"], []⟩).emailTo = [] :=
  c2_amended_mail_records_sender ⟨false⟩
    ⟨.plain, .alwaysAllow, ⟨[], []⟩, ⟨[], []⟩, ⟨100, 100⟩⟩ false
    ⟨false, "", "", ["old@x.y"], []⟩ ⟨false, "", "a@b.c", ["old@x.y"], []⟩
    "<a@b.c>" (by decide)

/-- C6 fails on the code: `NewAuthenticatorHashed` constructs an
`AuthenticatorPlaintext`, so the authenticator it returns compares the
secret against the stored digest by exact string equality instead of the
salted-hash comparison — under a bcrypt comparison that accepts
(digest, secret), the returned authenticator still rejects, while the
actual hashed variant accepts. -/
theorem c6_hashed_constructor_returns_plaintext :
    NewAuthenticatorHashed [("alice", "stored-bcrypt-digest")]
      = NewAuthenticatorPlaintext [("alice", "stored-bcrypt-digest")] ∧
    (NewAuthenticatorHashed [("alice", "stored-bcrypt-digest")]).Check
      (fun _ _ => true) "alice" "Passw0rd1" = false ∧
    (Authenticator.hashed [("alice", "stored-bcrypt-digest")]).Check
      (fun _ _ => true) "alice" "Passw0rd1" = true ∧
    (Authenticator.hashed [("alice", "stored-bcrypt-digest")]).Check
      (fun _ _ => true) "mallory" "Passw0rd1" = false :=
  ⟨rfl, by decide, by decide, by decide⟩

/-- Helper: on an uncancelled context with the auth requirement satisfied,
`Rcpt` on an admissible address reduces to the recipient-cap check followed
by the append. -/
theorem rcpt_step_of_admissible (cfgL : ListenerConfig) (cfgG : RecvGlobalConfig)
    (s : SessionState) (t : String)
    (hauth : (cfgL.requireAuth && !s.authenticated) = false)
    (ht : rcptAdmissible cfgG t = true) :
    Session.Rcpt cfgL cfgG false s t =
      if s.emailTo.length ≥ cfgG.limits.maxRecipients then
        (s, some .errTooManyRecipients)
      else ({ s with emailTo := s.emailTo ++ [trimAngle t] }, none) := by
  simp only [rcptAdmissible, Bool.and_eq_true, Bool.not_eq_true',
    decide_eq_true_eq] at ht
  obtain ⟨h1, h2⟩ := ht
  simp [Session.Rcpt, hauth, h1, h2]

/-- Helper: iterating `Rcpt` over admissible addresses that fit under the
recipient cap appends all of them (trimmed) and succeeds. -/
theorem rcptAll_success (cfgL : ListenerConfig) (cfgG : RecvGlobalConfig)
    (ts : List String) :
    ∀ s : SessionState,
      (cfgL.requireAuth && !s.authenticated) = false →
      (∀ x ∈ ts, rcptAdmissible cfgG x = true) →
      s.emailTo.length + ts.length ≤ cfgG.limits.maxRecipients →
      Session.rcptAll cfgL cfgG false s ts =
        ({ s with emailTo := s.emailTo ++ ts.map trimAngle }, none) := by
  induction ts with
  | nil =>
    intro s _ _ _
    simp [Session.rcptAll]
  | cons t ts ih =>
    intro s hauth hadm hlen
    have hstep := rcpt_step_of_admissible cfgL cfgG s t hauth (hadm t (by simp))
    have hlt : ¬ (s.emailTo.length ≥ cfgG.limits.maxRecipients) := by
      simp only [List.length_cons] at hlen
      omega
    rw [if_neg hlt] at hstep
    have ihs := ih { s with emailTo := s.emailTo ++ [trimAngle t] }
      hauth (fun x hx => hadm x (by simp [hx]))
      (by simp only [List.length_append, List.length_cons, List.length_nil]
            at hlen ⊢
          omega)
    simp only [Session.rcptAll, hstep, ihs, List.map_cons, List.append_assoc,
      List.singleton_append]

/-- C7: the recipient count never exceeds the configured maximum: the cap
check preserves `length ≤ max` on every call; starting from an empty
transaction, `max` admissible recipients are all accepted; a further
admissible `RCPT` then fails with `TooManyRecipients` before appending,
leaving exactly `max` recorded recipients. -/
theorem c7_recipient_cap (cfgL : ListenerConfig) (cfgG : RecvGlobalConfig)
    (s0 : SessionState) (t : String) (ts : List String)
    (hauth : (cfgL.requireAuth && !s0.authenticated) = false)
    (hempty : s0.emailTo = [])
    (hadm : ∀ x ∈ ts, rcptAdmissible cfgG x = true)
    (hlen : ts.length = cfgG.limits.maxRecipients)
    (ht : rcptAdmissible cfgG t = true) :
    (∀ (c : Bool) (s : SessionState) (x : String),
        s.emailTo.length ≤ cfgG.limits.maxRecipients →
        (Session.Rcpt cfgL cfgG c s x).1.emailTo.length ≤
          cfgG.limits.maxRecipients) ∧
    (Session.rcptAll cfgL cfgG false s0 ts).2 = none ∧
    (Session.rcptAll cfgL cfgG false s0 ts).1.emailTo.length =
      cfgG.limits.maxRecipients ∧
    Session.Rcpt cfgL cfgG false (Session.rcptAll cfgL cfgG false s0 ts).1 t =
      ((Session.rcptAll cfgL cfgG false s0 ts).1,
        some .errTooManyRecipients) := by
  have hall := rcptAll_success cfgL cfgG ts s0 hauth hadm
    (by rw [hempty, hlen]; simp)
  refine ⟨?_, ?_, ?_, ?_⟩
  · intro c s x h
    simp only [Session.Rcpt]
    repeat' split
    all_goals simp_all [List.length_append]
    all_goals omega
  · rw [hall]
  · rw [hall]
    simp [hempty, hlen]
  · rw [hall]
    have hstep := rcpt_step_of_admissible cfgL cfgG
      { s0 with emailTo := s0.emailTo ++ ts.map trimAngle } t hauth ht
    rw [hstep, if_pos]
    simp [hempty, hlen]

/-- Witness for C7 with `max_recipients = 2` and three admissible
recipients. -/
theorem c7_recipient_cap_witness :
    (Session.Rcpt ⟨false⟩ ⟨.plain, .alwaysAllow, ⟨[], []⟩, ⟨[], []⟩, ⟨100, 2⟩⟩
        true ⟨false, "", "", ["a@x"], []⟩ "b@x").1.emailTo.length ≤ 2 ∧
    (Session.rcptAll ⟨false⟩ ⟨.plain, .alwaysAllow, ⟨[], []⟩, ⟨[], []⟩, ⟨100, 2⟩⟩
        false ⟨false, "", "", [], []⟩ ["a@x", "b@x"]).2 = none ∧
    (Session.rcptAll ⟨false⟩ ⟨.plain, .alwaysAllow, ⟨[], []⟩, ⟨[], []⟩, ⟨100, 2⟩⟩
        false ⟨false, "", "", [], []⟩ ["a@x", "b@x"]).1.emailTo.length = 2 ∧
    Session.Rcpt ⟨false⟩ ⟨.plain, .alwaysAllow, ⟨[], []⟩, ⟨[], []⟩, ⟨100, 2⟩⟩
        false
        (Session.rcptAll ⟨false⟩ ⟨.plain, .alwaysAllow, ⟨[], []⟩, ⟨[], []⟩, ⟨100, 2⟩⟩
          false ⟨false, "", "", [], []⟩ ["a@x", "b@x"]).1 "c@x" =
      ((Session.rcptAll ⟨false⟩ ⟨.plain, .alwaysAllow, ⟨[], []⟩, ⟨[], []⟩, ⟨100, 2⟩⟩
          false ⟨false, "", "", [], []⟩ ["a@x", "b@x"]).1,
        some .errTooManyRecipients) := by
  have h := c7_recipient_cap ⟨false⟩
    ⟨.plain, .alwaysAllow, ⟨[], []⟩, ⟨[], []⟩, ⟨100, 2⟩⟩
    ⟨false, "", "", [], []⟩ "c@x" ["a@x", "b@x"]
    rfl rfl (by decide) rfl (by decide)
  exact ⟨h.1 true ⟨false, "", "", ["a@x"], []⟩ "b@x" (by decide),
    h.2.1, h.2.2.1, h.2.2.2⟩

/-- C8: `Data` reads at most `maxSize + 1` bytes from the transport; a
payload of exactly `maxSize` available bytes passes the size check and is
handed to the message-processing stage; a payload with at least
`maxSize + 1` available bytes fails with `MessageTooLarge` after reading
exactly `maxSize + 1` bytes, leaving the state unchanged. -/
theorem c8_data_size_limit (cfgL : ListenerConfig) (cfgG : RecvGlobalConfig)
    (hm : SessionState → List Nat → SessionState × Option SMTPErr)
    (s : SessionState) (stream1 stream2 : List Nat)
    (hauth : (cfgL.requireAuth && !s.authenticated) = false)
    (h1 : stream1.length = cfgG.limits.maxSize)
    (h2 : stream2.length ≥ cfgG.limits.maxSize + 1) :
    (∀ (c : Bool) (s' : SessionState) (st : List Nat),
        (Session.Data cfgL cfgG c hm s' st).bytesRead ≤
          cfgG.limits.maxSize + 1) ∧
    Session.Data cfgL cfgG false hm s stream1 =
      ⟨(hm s stream1).1, (hm s stream1).2, cfgG.limits.maxSize⟩ ∧
    Session.Data cfgL cfgG false hm s stream2 =
      ⟨s, some .errDataTooLarge, cfgG.limits.maxSize + 1⟩ := by
  refine ⟨?_, ?_, ?_⟩
  · intro c s' st
    simp only [Session.Data]
    repeat' split
    all_goals simp [List.length_take]
  · have htake : stream1.take (cfgG.limits.maxSize + 1) = stream1 :=
      List.take_of_length_le (by omega)
    simp [Session.Data, hauth, htake, h1]
  · have hlen2 : (stream2.take (cfgG.limits.maxSize + 1)).length =
        cfgG.limits.maxSize + 1 := by
      rw [List.length_take]
      omega
    simp [Session.Data, hauth, hlen2]

/-- Witness for C8 with `max_size = 3`. -/
theorem c8_data_size_limit_witness :
    (Session.Data ⟨false⟩ ⟨.plain, .alwaysAllow, ⟨[], []⟩, ⟨[], []⟩, ⟨3, 100⟩⟩
        true (fun s' _d => (s', none)) ⟨false, "", "", [], []⟩
        [1, 2, 3, 4, 5]).bytesRead ≤ 3 + 1 ∧
    Session.Data ⟨false⟩ ⟨.plain, .alwaysAllow, ⟨[], []⟩, ⟨[], []⟩, ⟨3, 100⟩⟩
        false (fun s' _d => (s', none)) ⟨false, "", "", [], []⟩ [1, 2, 3] =
      ⟨((fun (s' : SessionState) (_d : List Nat) => (s', (none : Option SMTPErr)))
          ⟨false, "", "", [], []⟩ [1, 2, 3]).1,
        ((fun (s' : SessionState) (_d : List Nat) => (s', (none : Option SMTPErr)))
          ⟨false, "", "", [], []⟩ [1, 2, 3]).2, 3⟩ ∧
    Session.Data ⟨false⟩ ⟨.plain, .alwaysAllow, ⟨[], []⟩, ⟨[], []⟩, ⟨3, 100⟩⟩
        false (fun s' _d => (s', none)) ⟨false, "", "", [], []⟩ [1, 2, 3, 4] =
      ⟨⟨false, "", "", [], []⟩, some .errDataTooLarge, 3 + 1⟩ := by
  have h := c8_data_size_limit ⟨false⟩
    ⟨.plain, .alwaysAllow, ⟨[], []⟩, ⟨[], []⟩, ⟨3, 100⟩⟩
    (fun s' _d => (s', none)) ⟨false, "", "", [], []⟩ [1, 2, 3] [1, 2, 3, 4]
    rfl rfl (by decide)
  exact ⟨h.1 true ⟨false, "", "", [], []⟩ [1, 2, 3, 4, 5], h.2.1, h.2.2⟩

/-! ## Theorems about the token cache -/

/-- C9: a held token whose expiry is more than one minute away is reused
without any network call; otherwise the token request is made under the
10-second internal timeout; `getAuthToken` fails on a transport error, a
non-200 status, or a malformed body; and a failed request leaves the cached
token untouched while `Authenticate` reports the error. -/
theorem c9_token_cache (now : Int) (fetch fetch2 : Except TokenErr AuthToken)
    (gsFresh gsStale gsAny : GraphTokenCache) (tok : AuthToken)
    (jsonParse : String → Option AuthTokenResponse)
    (status : Nat) (body body2 m : String) (e : TokenErr)
    (hTok : gsFresh.token = some tok)
    (hFresh : tok.expiresAt - now > minuteNs)
    (hStale : ∀ t, gsStale.token = some t → t.expiresAt - now ≤ minuteNs)
    (hStatus : status ≠ 200)
    (hParse : jsonParse body = none) :
    GraphSender.Authenticate now fetch gsFresh = ⟨gsFresh, none, false, none⟩ ∧
    (GraphSender.Authenticate now fetch2 gsStale).fetchCalled = true ∧
    (GraphSender.Authenticate now fetch2 gsStale).fetchTimeout =
      some tokenRequestTimeoutNs ∧
    GraphSender.getAuthToken jsonParse now (.transportError m) =
      .error (.transport m) ∧
    GraphSender.getAuthToken jsonParse now (.response status body2) =
      .error (.badStatus status) ∧
    GraphSender.getAuthToken jsonParse now (.response 200 body) =
      .error .unmarshal ∧
    (GraphSender.Authenticate now (.error e) gsAny).cache = gsAny ∧
    (GraphSender.Authenticate now (.error e) gsStale).error = some e := by
  have hstale' : ∀ fe : Except TokenErr AuthToken,
      (GraphSender.Authenticate now fe gsStale).fetchCalled = true ∧
      (GraphSender.Authenticate now fe gsStale).fetchTimeout =
        some tokenRequestTimeoutNs ∧
      (∀ e', fe = .error e' →
        (GraphSender.Authenticate now fe gsStale).error = some e') := by
    intro fe
    cases hT : gsStale.token with
    | none => cases fe <;> simp [GraphSender.Authenticate, hT]
    | some t =>
      have hle := hStale t hT
      cases fe <;>
        simp [GraphSender.Authenticate, hT, if_neg (not_lt.mpr hle)]
  refine ⟨?_, (hstale' fetch2).1, (hstale' fetch2).2.1, ?_, ?_, ?_, ?_,
    (hstale' (.error e)).2.2 e rfl⟩
  · simp [GraphSender.Authenticate, hTok, hFresh]
  · simp [GraphSender.getAuthToken]
  · simp [GraphSender.getAuthToken, hStatus]
  · simp [GraphSender.getAuthToken, hParse]
  · cases hT : gsAny.token with
    | none => simp [GraphSender.Authenticate, hT]
    | some t =>
      simp only [GraphSender.Authenticate, hT]
      split <;> rfl

/-- Witness for C9: a fresh token at `now = 0` expiring at `10^12` ns, a
stale (empty) cache, a 500 response and an unparseable body. -/
theorem c9_token_cache_witness :
    GraphSender.Authenticate 0 (.ok ⟨"t2", 5⟩) ⟨some ⟨"t1", 1000000000000⟩⟩ =
      ⟨⟨some ⟨"t1", 1000000000000⟩⟩, none, false, none⟩ ∧
    (GraphSender.Authenticate 0 (.error .unmarshal) ⟨none⟩).fetchCalled = true ∧
    (GraphSender.Authenticate 0 (.error .unmarshal) ⟨none⟩).fetchTimeout =
      some tokenRequestTimeoutNs ∧
    GraphSender.getAuthToken (fun _ => none) 0 (.transportError "refused") =
      .error (.transport "refused") ∧
    GraphSender.getAuthToken (fun _ => none) 0 (.response 500 "") =
      .error (.badStatus 500) ∧
    GraphSender.getAuthToken (fun _ => none) 0 (.response 200 "not-json") =
      .error .unmarshal ∧
    (GraphSender.Authenticate 0 (.error .unmarshal) ⟨none⟩).cache = ⟨none⟩ ∧
    (GraphSender.Authenticate 0 (.error .unmarshal) ⟨none⟩).error =
      some .unmarshal :=
  c9_token_cache 0 (.ok ⟨"t2", 5⟩) (.error .unmarshal)
    ⟨some ⟨"t1", 1000000000000⟩⟩ ⟨none⟩ ⟨none⟩ ⟨"t1", 1000000000000⟩
    (fun _ => none) 500 "not-json" "" "refused" .unmarshal
    rfl (by decide) (fun t h => nomatch h) (by decide) rfl
